import Mathlib

set_option linter.unusedVariables false

/-!
Shallow embedding of the workout recommendation engine of
src/src/recommender.py (class WorkoutRecommender) together with the data
model of src/src/data_models.py.

Modelling conventions:
- Python dictionaries with a fixed schema become structures; a key that may
  be absent becomes an Option-valued field.
- The heterogeneous values stored under sets, reps and rest_period (an int,
  a string such as 60s, or a min and max dictionary) become the sum type Val.
- A workout-template structure dictionary maps strings either to a day type
  string or to a frequency count, so its values are the sum type SVal; the
  dictionary itself is an association list in insertion order, with the
  dictGet?, dictSet and dictHas operations mirroring Python dict semantics
  [lookup, update-in-place-or-append, containment].
- Python numbers in the scoring pipeline are modelled as rationals; every
  number the program manipulates there [satisfaction averages, score
  increments of 2, 1 and 0.5] is exact in this range.
- Python strings compare lexicographically by code point; pyStrLt below is
  that order, and lowerStr models str.lower on the ASCII letters used by the
  data.
- random.randint and random.sample are non-deterministic, so the functions
  that consume them are modelled as relations between their inputs and every
  possible output [SelectExercisesRel, DayRel, WeeklyPlanRel,
  GeneratePlanRel]; a draw of random.sample k out of a population is any
  list that is a length-k Subperm of it.
- Reading a Python local variable that was never assigned raises
  UnboundLocalError; localRead models exactly that.
-/

/-! ### Python string primitives -/

/-- Lowercase a single ASCII letter, as both Python str.lower and the data
in this repository use it. -/
def lowerChar (c : Char) : Char :=
  if 65 ≤ c.toNat ∧ c.toNat ≤ 90 then Char.ofNat (c.toNat + 32) else c

/-- Model of Python str.lower for the ASCII strings of this code base. -/
def lowerStr (s : String) : String :=
  ⟨s.data.map lowerChar⟩

/-- Code point lexicographic strict order on character lists, the order
Python uses to compare strings. -/
def strLtB : List Char → List Char → Bool
  | [], [] => false
  | [], _ :: _ => true
  | _ :: _, [] => false
  | a :: as, b :: bs =>
    if a.toNat < b.toNat then true
    else if b.toNat < a.toNat then false
    else strLtB as bs

/-- Python string strict comparison. -/
def pyStrLt (a b : String) : Bool :=
  strLtB a.data b.data

/-- Python string non-strict comparison; in a total strict order this is the
negation of the reversed strict comparison. -/
def pyStrLe (a b : String) : Bool :=
  !(pyStrLt b a)

/-! ### Data model (src/src/data_models.py plus the dictionary payloads the
recommender attaches) -/

/-- A min and max dictionary as produced by _generate_progressive_parameters. -/
structure ParamRange where
  min : Int
  max : Int
  deriving DecidableEq, Repr

/-- A heterogeneous value stored under the sets, reps or rest_period key of
an exercise record: a plain number, a plain string, or a whole range
dictionary. -/
inductive Val where
  | int (n : Int)
  | str (s : String)
  | range (r : ParamRange)
  deriving DecidableEq, Repr

/-- Python truthiness of an optional Val: a missing key, the number 0 and
the empty string are falsy; a min and max dictionary is a nonempty dict and
hence truthy. -/
def valTruthy : Option Val → Bool
  | none => false
  | some (Val.int n) => n != 0
  | some (Val.str s) => s != ""
  | some (Val.range _) => true

/-- An exercise record.  The catalog fields are those of the Exercise
pydantic model; sets, reps, rest_period and notes are the keys the engine
may read or attach [absent on plain catalog entries]. -/
structure Exercise where
  name : String
  exercise_type : String
  muscle_groups : List String
  equipment_needed : List String
  intensity : String
  difficulty : String
  injury_restrictions : List String
  alternatives : List String
  sets : Option Val := none
  reps : Option Val := none
  rest_period : Option Val := none
  notes : Option String := none
  deriving DecidableEq, Repr

/-- A past-workout record as read by _apply_user_preferences via dict.get:
completed is read for truthiness, the other keys may be absent. -/
structure WorkoutRec where
  completed : Bool
  workout_type : Option String
  satisfaction : Option ℚ
  intensity : Option String
  deriving DecidableEq, Repr

/-- The UserProfile pydantic model.  past_workouts is modelled as a list;
the engine appends to it, so a None value [which the source would crash on
when appending] is outside this model. -/
structure UserProfile where
  user_id : String
  name : String
  age : Int
  gender : String
  goal : String
  fitness_level : String
  injuries : List String
  preferred_workouts : List String
  equipment : List String
  past_workouts : List WorkoutRec
  deriving DecidableEq, Repr

/-- A value of a workout-template structure dictionary: day-form entries map
a weekday to a workout type string, frequency-form entries map a workout
type to an integer count. -/
inductive SVal where
  | s (v : String)
  | i (v : Int)
  deriving DecidableEq, Repr

/-- A template structure dictionary: association list in insertion order. -/
abbrev Structure : Type :=
  List (String × SVal)

/-- A stored workout template record: a goal key plus an optional structure
dictionary [none models a missing or non-dict structure value]. -/
structure TemplateRec where
  goal : String
  struct? : Option Structure
  deriving DecidableEq, Repr

/-- One day entry of a generated plan: the value stored at the type key and
the exercises list. -/
structure Day where
  dtype : SVal
  exercises : List Exercise
  deriving DecidableEq, Repr

/-- The WorkoutPlan pydantic model; days keeps Monday..Sunday insertion
order as an association list. -/
structure WorkoutPlan where
  user_id : String
  week_number : Int
  days : List (String × Day)
  deriving DecidableEq, Repr

/-- The engine state: the loaded exercise catalog and template repository. -/
structure Engine where
  exercises : List Exercise
  templates : List TemplateRec
  deriving DecidableEq, Repr

/-- The Python exceptions this embedding distinguishes. -/
inductive PyErr where
  | valueError (msg : String)
  | attributeError (msg : String)
  | unboundLocal (name : String)
  | other (msg : String)
  deriving DecidableEq, Repr

/-- Reading a Python local variable: a never-assigned local raises
UnboundLocalError. -/
def localRead {α : Type} (name : String) : Option α → Except PyErr α
  | none => Except.error (PyErr.unboundLocal name)
  | some v => Except.ok v

/-! ### Dictionary operations, mirroring Python dict semantics on an
association list kept in insertion order -/

/-- dict.get: first [unique] binding of a key. -/
def dictGet? {α : Type} : List (String × α) → String → Option α
  | [], _ => none
  | (k, v) :: rest, key => if k = key then some v else dictGet? rest key

/-- The in operator on a dict. -/
def dictHas {α : Type} (d : List (String × α)) (key : String) : Bool :=
  (dictGet? d key).isSome

/-- Item assignment d[key] = v: update in place if the key exists, else
append, exactly as Python preserves insertion order. -/
def dictSet {α : Type} : List (String × α) → String → α → List (String × α)
  | [], key, v => [(key, v)]
  | (k, w) :: rest, key, v =>
    if k = key then (k, v) :: rest else (k, w) :: dictSet rest key v

/-! ### Safety and availability filters (recommender.py lines 251-278) plus
the candidate-set computation of generate_workout_plan Step 1 (lines
568-574) -/

/-- Model of _filter_exercises_by_injury: drop an exercise whose injury_restrictions
meet the user injuries. -/
def filter_exercises_by_injury (exercises : List Exercise) (injuries : List String) :
    List Exercise :=
  exercises.filter (fun ex =>
    !(ex.injury_restrictions.any (fun restriction => decide (restriction ∈ injuries))))

/-- Model of _filter_exercises_by_equipment: keep an exercise needing no equipment,
or one of whose required items the user owns at least one. -/
def filter_exercises_by_equipment (exercises : List Exercise) (equipment : List String) :
    List Exercise :=
  exercises.filter (fun ex =>
    ex.equipment_needed.isEmpty ||
      ex.equipment_needed.any (fun eq => decide (eq ∈ equipment)))

/-- Step 1 of generate_workout_plan, lines 568-574: injury filter, then
equipment filter; if that is empty, fall back to the no-equipment exercises
of self.exercises [the raw catalog, not the injury-filtered set]. -/
def candidateExercises (catalog : List Exercise) (injuries equipment : List String) :
    List Exercise :=
  let safe_exercises := filter_exercises_by_injury catalog injuries
  let available_exercises := filter_exercises_by_equipment safe_exercises equipment
  if available_exercises = [] then
    catalog.filter (fun ex => ex.equipment_needed.isEmpty)
  else
    available_exercises

/-! ### Preference scorer (_apply_user_preferences, lines 335-430) -/

/-- defaultdict-style append used for the satisfaction tables. -/
def addEntry (tbl : List (String × List ℚ)) (k : String) (v : ℚ) :
    List (String × List ℚ) :=
  match dictGet? tbl k with
  | some vs => dictSet tbl k (vs ++ [v])
  | none => tbl ++ [(k, [v])]

/-- Lines 350-366: collect satisfaction values per workout type and per
intensity over the completed past workouts; an absent satisfaction key
defaults to 3, empty-string type or intensity values are falsy and skipped. -/
def buildSatisfactionTables (past_workouts : List WorkoutRec) :
    List (String × List ℚ) × List (String × List ℚ) :=
  past_workouts.foldl
    (fun tbls w =>
      if w.completed then
        let satisfaction := w.satisfaction.getD 3
        let tbls1 :=
          match w.workout_type with
          | some t => if t ≠ "" then (addEntry tbls.1 t satisfaction, tbls.2) else tbls
          | none => tbls
        match w.intensity with
        | some i => if i ≠ "" then (tbls1.1, addEntry tbls1.2 i satisfaction) else tbls1
        | none => tbls1
      else tbls)
    ([], [])

/-- Lines 368-376: average satisfaction per key. -/
def avgTable (tbl : List (String × List ℚ)) : List (String × ℚ) :=
  tbl.map (fun kv => (kv.1, kv.2.sum / (kv.2.length : ℚ)))

/-- Lines 380-422: the additive score of one exercise, accumulated in source
order.  The +2 preferred-type bonus requires a truthy [nonempty] type; the
+0.5 bonus requires truthy sets and reps values. -/
def scoreExercise (avg_type avg_intensity : List (String × ℚ))
    (preferred_types : List String) (fitness_level : String) (exercise : Exercise) : ℚ :=
  let score1 : ℚ :=
    if exercise.exercise_type ≠ "" ∧ exercise.exercise_type ∈ preferred_types then 2 else 0
  let score2 : ℚ := score1 + (if exercise.difficulty = fitness_level then 1 else 0)
  let score3 : ℚ :=
    score2 + (if valTruthy exercise.sets = true ∧ valTruthy exercise.reps = true then 1/2 else 0)
  let intensity := exercise.intensity
  let score4 : ℚ :=
    score3 +
      (match dictGet? avg_intensity intensity with
       | some a => if 4 ≤ a then 2 else if 3 ≤ a then 1 else 0
       | none => 0)
  let score5 : ℚ :=
    score4 +
      (match dictGet? avg_type exercise.exercise_type with
       | some a => if 4 ≤ a then 2 else if 3 ≤ a then 1 else 0
       | none => 0)
  score5 +
    (if (fitness_level = "Beginner" ∧ intensity = "Low") ∨
        (fitness_level = "Intermediate" ∧ intensity = "Moderate") ∨
        (fitness_level = "Advanced" ∧ intensity = "High") then 1 else 0)

/-- Non-strict lexicographic order on a score and name pair, i.e. Python
tuple comparison with the string order pyStrLe. -/
def keyLe (a b : ℚ × String) : Prop :=
  a.1 < b.1 ∨ (a.1 = b.1 ∧ pyStrLe a.2 b.2 = true)

instance (a b : ℚ × String) : Decidable (keyLe a b) := by
  unfold keyLe
  infer_instance

/-- The before-or-equal relation realised by sorted with key (score, name)
and reverse=True: a precedes b when the key tuple of a is at least the key
tuple of b. -/
def prefRel (avg_type avg_intensity : List (String × ℚ)) (preferred_types : List String)
    (fitness_level : String) (a b : Exercise) : Prop :=
  keyLe (scoreExercise avg_type avg_intensity preferred_types fitness_level b, b.name)
        (scoreExercise avg_type avg_intensity preferred_types fitness_level a, a.name)

instance (avg_type avg_intensity : List (String × ℚ)) (preferred_types : List String)
    (fitness_level : String) :
    DecidableRel (prefRel avg_type avg_intensity preferred_types fitness_level) :=
  fun a b => by
    unfold prefRel
    infer_instance

/-- Model of _apply_user_preferences, lines 335-430.  CPython sorted is a stable
sort; with reverse=True it keeps equal elements in input order, which is
exactly a stable insertion sort under prefRel. -/
def apply_user_preferences (exercises : List Exercise) (preferred_types : List String)
    (fitness_level : String) (past_workouts : List WorkoutRec) : List Exercise :=
  if exercises = [] then []
  else
    let tbls := buildSatisfactionTables past_workouts
    List.insertionSort
      (prefRel (avgTable tbls.1) (avgTable tbls.2) preferred_types fitness_level)
      exercises

/-! ### Categorizer and muscle-group balancer (lines 280-286 and 432-459) -/

/-- defaultdict(list) append for _categorize_exercises. -/
def addToGroup (d : List (String × List Exercise)) (k : String) (ex : Exercise) :
    List (String × List Exercise) :=
  match dictGet? d k with
  | some l => dictSet d k (l ++ [ex])
  | none => d ++ [(k, [ex])]

/-- Model of _categorize_exercises: group by exercise_type in first-seen order. -/
def categorize_exercises (exercises : List Exercise) : List (String × List Exercise) :=
  exercises.foldl (fun acc ex => addToGroup acc ex.exercise_type ex) []

/-- The greedy pass of _balance_muscle_groups, lines 446-452: accept an
exercise when none of its muscle groups is already claimed, then claim them
all.  [The muscle_group_count dictionary of lines 440-443 is computed by the
source but never read, so it has no counterpart here.] -/
def greedyBalance : List Exercise → List String → List Exercise
  | [], _ => []
  | ex :: rest, selected_muscles =>
    if ex.muscle_groups.any (fun m => decide (m ∈ selected_muscles)) then
      greedyBalance rest selected_muscles
    else
      ex :: greedyBalance rest (selected_muscles ++ ex.muscle_groups)

/-- One group of _balance_muscle_groups, lines 436-458: the greedy pass
followed by the remaining exercises, where remaining is computed by Python
list membership, i.e. equality with some accepted exercise. -/
def balanceGroup (exercises : List Exercise) : List Exercise :=
  let balanced_exercises := greedyBalance exercises []
  balanced_exercises ++ exercises.filter (fun ex => !(decide (ex ∈ balanced_exercises)))

/-- Model of _balance_muscle_groups over the whole categorized dictionary. -/
def balance_muscle_groups (categorized : List (String × List Exercise)) :
    List (String × List Exercise) :=
  categorized.map (fun kv => (kv.1, balanceGroup kv.2))

/-! ### Template resolver and adapter (lines 288-333 and 493-540) -/

/-- The built-in default day mapping of _get_workout_template. -/
def defaultDayStructure : Structure :=
  [("Monday", SVal.s "Strength"), ("Tuesday", SVal.s "Cardio"),
   ("Wednesday", SVal.s "Core"), ("Thursday", SVal.s "Strength"),
   ("Friday", SVal.s "Cardio"), ("Saturday", SVal.s "Flexibility"),
   ("Sunday", SVal.s "Rest")]

/-- Index of the template a reversed scan finds first, i.e. the last store
entry with the given goal. -/
def findLastIdx? (templates : List TemplateRec) (g : String) : Option Nat :=
  (templates.reverse.findIdx? (fun t => decide (t.goal = g))).map
    (fun j => templates.length - 1 - j)

/-- The template _get_workout_template resolves: its goal, its structure
dictionary, and, when the structure is the one still shared with the store
record [t.copy() is a shallow copy, and the structure is kept when it is a
dict containing Monday, Tuesday or Wednesday], the index of that record. -/
structure ResolvedTemplate where
  goal : String
  struct_ : Structure
  sharedIdx : Option Nat
  deriving DecidableEq, Repr

/-- Model of _get_workout_template, lines 288-333. -/
def get_workout_template (templates : List TemplateRec) (goal : String) : ResolvedTemplate :=
  let pick :=
    match findLastIdx? templates goal with
    | some i => some i
    | none => findLastIdx? templates "General Fitness"
  match pick with
  | none => { goal := "General Fitness", struct_ := defaultDayStructure, sharedIdx := none }
  | some i =>
    match templates.get? i with
    | none =>
      { goal := "General Fitness", struct_ := defaultDayStructure, sharedIdx := none }
    | some t =>
      match t.struct? with
      | none => { goal := t.goal, struct_ := defaultDayStructure, sharedIdx := none }
      | some s =>
        if ["Monday", "Tuesday", "Wednesday"].any (fun d => dictHas s d) then
          { goal := t.goal, struct_ := s, sharedIdx := some i }
        else
          { goal := t.goal, struct_ := defaultDayStructure, sharedIdx := none }

/-- The keys of a structure dictionary whose value is the string Rest. -/
def restDayKeys (struct_ : Structure) : List String :=
  (struct_.filter (fun kv => decide (kv.2 = SVal.s "Rest"))).map Prod.fst

/-- Model of _adapt_template_to_preferences, lines 493-540, acting on the structure
dictionary it mutates in place.  The level rules are an if-elif; the
preference loop iterates the dictionary keys reading each current value. -/
def adapt_template_to_preferences (struct_ : Structure) (preferred_types : List String)
    (fitness_level : String) : Structure :=
  let s1 :=
    if fitness_level = "Beginner" then
      if (restDayKeys struct_).length < 2 then dictSet struct_ "Wednesday" (SVal.s "Rest")
      else struct_
    else if fitness_level = "Advanced" then
      let rest_days := restDayKeys struct_
      if rest_days.length > 1 then
        rest_days.dropLast.foldl (fun acc d => dictSet acc d (SVal.s "Active Recovery")) struct_
      else struct_
    else struct_
  (s1.map Prod.fst).foldl
    (fun acc day =>
      let workout_type := (dictGet? acc day).getD (SVal.s "")
      if workout_type = SVal.s "Rest" ∨ workout_type = SVal.s "Active Recovery" then acc
      else if "HIIT" ∈ preferred_types ∧ (day = "Tuesday" ∨ day = "Thursday") then
        dictSet acc day (SVal.s "HIIT")
      else if "Strength" ∈ preferred_types ∧ (day = "Monday" ∨ day = "Friday") then
        dictSet acc day (SVal.s "Strength")
      else if "Core" ∈ preferred_types ∧ workout_type = SVal.s "Strength" then
        dictSet acc day (SVal.s "Core")
      else acc)
    s1

/-- Steps 4 of generate_workout_plan, lines 588-594, with the aliasing made
explicit: resolving hands out a template whose structure dictionary is the
very dict stored in the repository whenever the stored structure passes the
day-form check [shallow t.copy()], and adapting mutates that dict in place,
so the store record changes with it.  Returns the adapted goal and
structure together with the template store after the call. -/
def template_phase (templates : List TemplateRec) (goal : String)
    (preferred_types : List String) (fitness_level : String) :
    (String × Structure) × List TemplateRec :=
  let r := get_workout_template templates goal
  let final := adapt_template_to_preferences r.struct_ preferred_types fitness_level
  let templates_after :=
    match r.sharedIdx with
    | some i =>
      match templates.get? i with
      | some t => templates.set i { t with struct? := some final }
      | none => templates
    | none => templates
  ((r.goal, final), templates_after)

/-! ### Progressive parameters (lines 461-491) -/

/-- The three parameter ranges. -/
structure Params where
  sets : ParamRange
  reps : ParamRange
  rest : ParamRange
  deriving DecidableEq, Repr

/-- Model of _generate_progressive_parameters: base ranges per level [unknown level
falls back to Beginner] with goal adjustments. -/
def generate_progressive_parameters (fitness_level goal : String) : Params :=
  let base : Params :=
    if fitness_level = "Intermediate" then ⟨⟨3, 4⟩, ⟨10, 15⟩, ⟨45, 75⟩⟩
    else if fitness_level = "Advanced" then ⟨⟨3, 5⟩, ⟨12, 20⟩, ⟨30, 60⟩⟩
    else ⟨⟨2, 3⟩, ⟨8, 12⟩, ⟨60, 90⟩⟩
  if goal = "Muscle Gain" then
    { base with
        sets := { base.sets with min := base.sets.min + 1 },
        rest := { base.rest with max := base.rest.max + 15 } }
  else if goal = "Endurance" then
    { base with
        reps := ⟨base.reps.min + 4, base.reps.max + 4⟩,
        rest := { base.rest with max := base.rest.max - 15 } }
  else base

/-! ### Day schedule (lines 652-688) -/

/-- The canonical weekday list. -/
def weekDays : List String :=
  ["Monday", "Tuesday", "Wednesday", "Thursday", "Friday", "Saturday", "Sunday"]

/-- The loop of _optimize_schedule, lines 677-685: i is the 0-based index,
rest_added the number of Rest entries inserted so far; Python % on a
positive modulus is Int.emod. -/
def optimize_schedule_loop : List String → Int → Int → List String
  | [], _, _ => []
  | workout :: rest, i, rest_added =>
    if (i + 1 - rest_added) % 3 = 0 ∧ workout ≠ "Flexibility" ∧ workout ≠ "Mobility" then
      workout :: "Rest" :: optimize_schedule_loop rest (i + 1) (rest_added + 1)
    else
      workout :: optimize_schedule_loop rest (i + 1) rest_added

/-- Model of _optimize_schedule, lines 675-688. -/
def optimize_schedule (schedule : List String) : List String :=
  (optimize_schedule_loop schedule 0 0).take 7

/-- The frequency expansion of _create_day_schedule, lines 662-665: each
integer-valued entry contributes count copies of its key; list repetition
with a negative count is empty, as in Python. -/
def freqExpand (struct_ : Structure) : List String :=
  struct_.foldl
    (fun schedule kv =>
      match kv.2 with
      | SVal.i count => schedule ++ List.replicate count.toNat kv.1
      | SVal.s _ => schedule)
    []

/-- Model of _create_day_schedule, lines 652-673: day-form structures are read
directly [missing days default to Rest]; frequency-form structures are
expanded, padded with Rest to length 7, and optimized. -/
def create_day_schedule (struct_ : Structure) : List SVal :=
  if weekDays.any (fun d => dictHas struct_ d) then
    weekDays.map (fun d => (dictGet? struct_ d).getD (SVal.s "Rest"))
  else
    let schedule := freqExpand struct_
    let schedule :=
      if schedule.length < 7 then schedule ++ List.replicate (7 - schedule.length) "Rest"
      else schedule
    (optimize_schedule schedule).map SVal.s

/-! ### Exercise selection and parameterization (lines 690-757) -/

/-- The static type synonym table of _select_exercises. -/
def type_mapping (workout_type : String) : List String :=
  if workout_type = "Strength" then ["Strength", "Resistance"]
  else if workout_type = "HIIT" then ["HIIT", "Cardio"]
  else if workout_type = "Cardio" then ["Cardio", "HIIT"]
  else if workout_type = "Core" then ["Strength"]
  else if workout_type = "Flexibility" then ["Flexibility", "Mobility"]
  else if workout_type = "Mobility" then ["Mobility", "Flexibility"]
  else [workout_type]

/-- Lines 711-718: keep the exercises whose lowercased type is among the
lowercased synonyms; Core days additionally require the Core muscle group. -/
def typeFilter (available_exercises : List Exercise) (workout_type : String) :
    List Exercise :=
  available_exercises.filter (fun ex =>
    decide (lowerStr ex.exercise_type ∈ (type_mapping workout_type).map lowerStr ∧
            (workout_type = "Core" → "Core" ∈ ex.muscle_groups)))

/-- Model of _generate_exercise_notes, lines 744-757. -/
def generate_exercise_notes (exercise : Exercise) (injuries : List String) : String :=
  let notes := injuries.foldl
    (fun acc injury =>
      if injury ∈ exercise.injury_restrictions then
        acc ++ ["Alternative: " ++ String.intercalate ", " exercise.alternatives]
      else acc)
    []
  let notes :=
    if exercise.intensity = "High" then notes ++ ["Monitor form carefully"] else notes
  if notes = [] then "Perform with proper form" else String.intercalate "; " notes

/-- Lines 730-740: the per-exercise parameter attachment.  The fallbacks
params.get with defaults 3, 12 and 60s never fire because params always
carries the three keys, so an exercise without its own value receives the
whole range dictionary. -/
def enhanceExercise (params : Params) (injuries : List String) (exercise : Exercise) :
    Exercise :=
  { exercise with
      sets := some (exercise.sets.getD (Val.range params.sets)),
      reps := some (exercise.reps.getD (Val.range params.reps)),
      rest_period := some (exercise.rest_period.getD (Val.range params.rest)),
      notes := some (generate_exercise_notes exercise injuries) }

/-- Model of _select_exercises, lines 690-742, as a relation between its inputs and
every output the random draws allow: num_exercises = min(randint(2,3), n)
and random.sample yields any length-num Subperm of the type-filtered pool. -/
def SelectExercisesRel (available_exercises : List Exercise) (workout_type : String)
    (params : Params) (injuries : List String) (result : List Exercise) : Prop :=
  if available_exercises = [] then result = []
  else
    let type_exercises := typeFilter available_exercises workout_type
    if type_exercises = [] then result = []
    else
      ∃ (r : Nat) (sel : List Exercise),
        (r = 2 ∨ r = 3) ∧
        sel.length = min r type_exercises.length ∧
        List.Subperm sel type_exercises ∧
        result = sel.map (enhanceExercise params injuries)

/-! ### Weekly plan assembly (lines 542-650) -/

/-- Lookup of exercises_by_type.get(workout_type, []): the categorized dict
is keyed by exercise_type strings, so a non-string day type never matches. -/
def byTypeGet (byType : List (String × List Exercise)) : SVal → List Exercise
  | SVal.s w => (dictGet? byType w).getD []
  | SVal.i _ => []

/-- One day of _generate_weekly_plan, lines 633-648.  A non-string day type
reaches _select_exercises with an empty pool [byTypeGet misses], which
returns [] before touching the type table. -/
def DayRel (byType : List (String × List Exercise)) (params : Params)
    (injuries : List String) (workout_type : SVal) (day : Day) : Prop :=
  if workout_type = SVal.s "Rest" then day = ⟨SVal.s "Rest", []⟩
  else if workout_type = SVal.s "Active Recovery" then day = ⟨SVal.s "Active Recovery", []⟩
  else
    day.dtype = workout_type ∧
    match workout_type with
    | SVal.s w => SelectExercisesRel (byTypeGet byType (SVal.s w)) w params injuries day.exercises
    | SVal.i _ => day.exercises = []

/-- day_schedule[i] if i < len(day_schedule) else Rest, line 634. -/
def schedAt (day_schedule : List SVal) (i : Nat) : SVal :=
  (day_schedule.get? i).getD (SVal.s "Rest")

/-- Model of _generate_weekly_plan, lines 624-650, relationally: the plan has the
seven weekday keys in order and each day satisfies DayRel against the
schedule entry of its index. -/
def WeeklyPlanRel (byType : List (String × List Exercise)) (struct_ : Structure)
    (params : Params) (injuries : List String) (days : List (String × Day)) : Prop :=
  days.map Prod.fst = weekDays ∧
  ∀ i (h : i < days.length),
    DayRel byType params injuries (schedAt (create_day_schedule struct_) i) (days.get ⟨i, h⟩).2

/-- The outcome of the try block of generate_workout_plan, lines 560-594,
abstracted: on success the locals it binds; an AttributeError raised by any
stage; or any other exception. -/
inductive TryOutcome where
  | ok (balanced : List (String × List Exercise)) (adapted : String × Structure)
  | attrError (msg : String)
  | exn (e : PyErr)

/-- Lines 595-622 of generate_workout_plan: the except handlers and Steps 5
and 6.  The AttributeError handler binds template and balanced_exercises
but never adapted_template, and Step 6 then reads adapted_template
[line 611]; localRead turns that read of a never-assigned local into
UnboundLocalError.  Any other exception is re-raised unchanged. -/
def AfterTryRel (eng : Engine) (user : UserProfile) (t : TryOutcome)
    (out : Except PyErr WorkoutPlan) : Prop :=
  match t with
  | TryOutcome.exn e => out = Except.error e
  | TryOutcome.attrError _ =>
    let balanced_exercises := categorize_exercises eng.exercises
    let adapted_template : Option (String × Structure) := none
    let params := generate_progressive_parameters user.fitness_level user.goal
    match localRead "adapted_template" adapted_template with
    | Except.error e => out = Except.error e
    | Except.ok adapted =>
      ∃ days, WeeklyPlanRel balanced_exercises adapted.2 params user.injuries days ∧
        out = Except.ok ⟨user.user_id, 1, days⟩
  | TryOutcome.ok balanced adapted =>
    let params := generate_progressive_parameters user.fitness_level user.goal
    ∃ days, WeeklyPlanRel balanced adapted.2 params user.injuries days ∧
      out = Except.ok ⟨user.user_id, 1, days⟩

/-- generate_workout_plan, lines 542-622, relationally.  A None
last_workout raises ValueError before any mutation.  Otherwise the record
is appended to the user history, the try block runs [on this model every
user field exists and every catalog entry is a record, so the block raises
no AttributeError and its locals are the computed values below], the
template store suffers the shallow-copy aliasing of template_phase, and
Steps 5 and 6 build the plan. -/
def GeneratePlanRel (eng : Engine) (user : UserProfile) (last_workout : Option WorkoutRec)
    (out : Except PyErr WorkoutPlan) (userAfter : UserProfile) (engAfter : Engine) : Prop :=
  match last_workout with
  | none =>
    out = Except.error (PyErr.valueError "Must specify last workout before generating a new plan") ∧
    userAfter = user ∧ engAfter = eng
  | some w =>
    let past := user.past_workouts ++ [w]
    let candidates := candidateExercises eng.exercises user.injuries user.equipment
    let preferred :=
      apply_user_preferences candidates user.preferred_workouts user.fitness_level past
    let byType := balance_muscle_groups (categorize_exercises preferred)
    let phase := template_phase eng.templates user.goal user.preferred_workouts user.fitness_level
    userAfter = { user with past_workouts := past } ∧
    engAfter = { eng with templates := phase.2 } ∧
    AfterTryRel eng user (TryOutcome.ok byType phase.1) out

/-! ### Concrete fixtures used by the claim theorems -/

/-- A no-equipment exercise contraindicated for a knee injury. -/
def kneeBadEx : Exercise :=
  { name := "Wall Sit", exercise_type := "Strength", muscle_groups := ["Legs"],
    equipment_needed := [], intensity := "Low", difficulty := "Beginner",
    injury_restrictions := ["Knee Injury"], alternatives := ["Chair Squat"] }

/-- An engine whose catalog holds only kneeBadEx and whose template store is
empty. -/
def engC1 : Engine :=
  { exercises := [kneeBadEx], templates := [] }

/-- A user with a knee injury and no equipment. -/
def userC1 : UserProfile :=
  { user_id := "u1", name := "Ada", age := 30, gender := "F", goal := "General Fitness",
    fitness_level := "Beginner", injuries := ["Knee Injury"], preferred_workouts := [],
    equipment := [], past_workouts := [] }

/-- A last-workout record. -/
def lwC1 : WorkoutRec :=
  { completed := true, workout_type := some "Strength", satisfaction := some 3,
    intensity := some "Low" }

/-! ### Helper lemmas about the selection relation -/

/-- With a singleton type-filtered pool, every random draw selects exactly
that exercise. -/
theorem selectRel_singleton_forced (x : Exercise) (w : String) (params : Params)
    (inj : List String) (res : List Exercise)
    (hx : typeFilter [x] w = [x])
    (h : SelectExercisesRel [x] w params inj res) :
    res = [enhanceExercise params inj x] := by
  unfold SelectExercisesRel at h
  rw [if_neg (by simp)] at h
  simp only [hx] at h
  rw [if_neg (by simp)] at h
  obtain ⟨r, sel, hr, hlen, hsub, hres⟩ := h
  have hlen1 : sel.length = 1 := by
    rcases hr with rfl | rfl <;> simpa using hlen
  have hperm : List.Perm sel [x] := hsub.perm_of_length_le (by simp [hlen1])
  have hsel : sel = [x] := List.perm_singleton.mp hperm
  rw [hsel] at hres
  simpa using hres

/-- A Rest schedule entry forces a Rest day with no exercises. -/
theorem dayRel_rest (byType : List (String × List Exercise)) (params : Params)
    (inj : List String) :
    DayRel byType params inj (SVal.s "Rest") ⟨SVal.s "Rest", []⟩ := by
  unfold DayRel
  simp

/-- A workout day whose type has no exercises in the categorized dictionary
gets an empty list. -/
theorem dayRel_empty_pool (byType : List (String × List Exercise)) (params : Params)
    (inj : List String) (w : String)
    (hw1 : w ≠ "Rest") (hw2 : w ≠ "Active Recovery")
    (hb : byTypeGet byType (SVal.s w) = []) :
    DayRel byType params inj (SVal.s w) ⟨SVal.s w, []⟩ := by
  unfold DayRel
  rw [if_neg (by simpa using hw1), if_neg (by simpa using hw2)]
  refine ⟨rfl, ?_⟩
  simp only [hb]
  unfold SelectExercisesRel
  simp

/-- C6 [confirmed]: calling generate_workout_plan with last_workout equal to
None raises ValueError, returns no plan, and leaves the user history and the
engine unchanged. -/
theorem c6_missing_last_workout_raises (eng : Engine) (user : UserProfile)
    (out : Except PyErr WorkoutPlan) (u2 : UserProfile) (e2 : Engine)
    (h : GeneratePlanRel eng user none out u2 e2) :
    out = Except.error (PyErr.valueError "Must specify last workout before generating a new plan") ∧
    (∀ plan, out ≠ Except.ok plan) ∧
    u2.past_workouts = user.past_workouts ∧ e2 = eng := by
  obtain ⟨h1, h2, h3⟩ := h
  subst h1 h2 h3
  exact ⟨rfl, fun plan => by simp, rfl, rfl⟩

/-- Witness for C6 at a concrete engine and user. -/
theorem c6_missing_last_workout_raises_witness :
    GeneratePlanRel engC1 userC1 none
      (Except.error (PyErr.valueError "Must specify last workout before generating a new plan"))
      userC1 engC1 ∧
    (Except.error (PyErr.valueError "Must specify last workout before generating a new plan") :
        Except PyErr WorkoutPlan) =
      Except.error (PyErr.valueError "Must specify last workout before generating a new plan") := by
  have hrel : GeneratePlanRel engC1 userC1 none
      (Except.error (PyErr.valueError "Must specify last workout before generating a new plan"))
      userC1 engC1 := ⟨rfl, rfl, rfl⟩
  exact ⟨hrel, (c6_missing_last_workout_raises engC1 userC1 _ _ _ hrel).1⟩

/-- C2 [code_bug]: with catalog [kneeBadEx], injuries [Knee Injury] and no
equipment, the equipment pass over the injury-safe set is empty, yet the
candidate set the code falls back to is [kneeBadEx] — the unfiltered
catalog restricted to no-equipment exercises — while the injury-safe set
restricted to no-equipment exercises is empty, as the claim would require. -/
theorem c2_fallback_ignores_injury_filter :
    filter_exercises_by_equipment
        (filter_exercises_by_injury engC1.exercises userC1.injuries) userC1.equipment = [] ∧
    candidateExercises engC1.exercises userC1.injuries userC1.equipment = [kneeBadEx] ∧
    (filter_exercises_by_injury engC1.exercises userC1.injuries).filter
        (fun ex => ex.equipment_needed.isEmpty) = [] ∧
    kneeBadEx.injury_restrictions = ["Knee Injury"] := by
  refine ⟨by decide, by decide, by decide, rfl⟩

/-- The template store for the C3 counterexample: one day-form Muscle Gain
template with a single Rest day. -/
def storeC3 : List TemplateRec :=
  [{ goal := "Muscle Gain",
     struct? := some
       [("Monday", SVal.s "Strength"), ("Tuesday", SVal.s "Strength"),
        ("Wednesday", SVal.s "Core"), ("Thursday", SVal.s "Strength"),
        ("Friday", SVal.s "Strength"), ("Saturday", SVal.s "Cardio"),
        ("Sunday", SVal.s "Rest")] }]

/-- C3 [code_bug]: resolving and adapting the Muscle Gain template for a
Beginner rewrites the Wednesday entry of the template record held in the
store from Core to Rest: the stored template repository is mutated by plan
generation, because t.copy() is shallow and the adapter writes into the
shared structure dictionary. -/
theorem c3_generate_mutates_template_store :
    (template_phase storeC3 "Muscle Gain" [] "Beginner").2 ≠ storeC3 ∧
    (template_phase storeC3 "Muscle Gain" [] "Beginner").2.map
        (fun t => dictGet? (t.struct?.getD []) "Wednesday") = [some (SVal.s "Rest")] ∧
    storeC3.map (fun t => dictGet? (t.struct?.getD []) "Wednesday") = [some (SVal.s "Core")] := by
  refine ⟨by decide, by decide, by decide⟩

/-- C5 amended: an exercise with none of its own sets, reps and rest_period
values is assigned the whole level- and goal-derived range record for each
of the three keys, not the single minimum. -/
theorem c5_amended_range_attached (fitness_level goal : String) (inj : List String)
    (ex : Exercise) (hs : ex.sets = none) (hr : ex.reps = none) (hp : ex.rest_period = none) :
    (enhanceExercise (generate_progressive_parameters fitness_level goal) inj ex).sets =
      some (Val.range (generate_progressive_parameters fitness_level goal).sets) ∧
    (enhanceExercise (generate_progressive_parameters fitness_level goal) inj ex).reps =
      some (Val.range (generate_progressive_parameters fitness_level goal).reps) ∧
    (enhanceExercise (generate_progressive_parameters fitness_level goal) inj ex).rest_period =
      some (Val.range (generate_progressive_parameters fitness_level goal).rest) := by
  unfold enhanceExercise
  rw [hs, hr, hp]
  exact ⟨rfl, rfl, rfl⟩

/-- Witness for the amended C5 at kneeBadEx and Beginner parameters. -/
theorem c5_amended_range_attached_witness :
    kneeBadEx.sets = none ∧ kneeBadEx.reps = none ∧ kneeBadEx.rest_period = none ∧
    (enhanceExercise (generate_progressive_parameters "Beginner" "General Fitness")
        ["Knee Injury"] kneeBadEx).sets =
      some (Val.range (generate_progressive_parameters "Beginner" "General Fitness").sets) := by
  refine ⟨rfl, rfl, rfl, ?_⟩
  exact (c5_amended_range_attached "Beginner" "General Fitness" ["Knee Injury"] kneeBadEx
    rfl rfl rfl).1

/-- C5 counterexample: a Beginner with no goal adjustment and an exercise
without its own parameters: the attached sets value is the whole range
record with min 2 and max 3, which is not the single numeric value 2 the
claim states; likewise reps is the 8 to 12 range rather than 8, and
rest_period the 60 to 90 range rather than 60.  The selection relation
shows this is what the plan receives. -/
theorem c5_counterexample_range_not_min :
    SelectExercisesRel [kneeBadEx] "Strength"
      (generate_progressive_parameters "Beginner" "General Fitness") []
      [enhanceExercise (generate_progressive_parameters "Beginner" "General Fitness") [] kneeBadEx] ∧
    (enhanceExercise (generate_progressive_parameters "Beginner" "General Fitness") []
        kneeBadEx).sets = some (Val.range ⟨2, 3⟩) ∧
    some (Val.range ⟨2, 3⟩) ≠ some (Val.int 2) ∧
    (enhanceExercise (generate_progressive_parameters "Beginner" "General Fitness") []
        kneeBadEx).reps = some (Val.range ⟨8, 12⟩) ∧
    (enhanceExercise (generate_progressive_parameters "Beginner" "General Fitness") []
        kneeBadEx).rest_period = some (Val.range ⟨60, 90⟩) := by
  refine ⟨?_, by decide, by decide, by decide, by decide⟩
  unfold SelectExercisesRel
  rw [if_neg (by simp)]
  simp only [show typeFilter [kneeBadEx] "Strength" = [kneeBadEx] from by decide]
  rw [if_neg (by simp)]
  exact ⟨2, [kneeBadEx], Or.inl rfl, by decide, List.Subperm.refl _, by decide⟩

/-! ### C1: the bodyweight fallback bypasses the injury filter -/

/-- The progressive parameters computed for userC1. -/
def paramsC1 : Params :=
  generate_progressive_parameters userC1.fitness_level userC1.goal

/-- The categorized and balanced exercise dictionary the pipeline computes
for engC1 and userC1. -/
def byTypeC1 : List (String × List Exercise) :=
  balance_muscle_groups (categorize_exercises (apply_user_preferences
    (candidateExercises engC1.exercises userC1.injuries userC1.equipment)
    userC1.preferred_workouts userC1.fitness_level (userC1.past_workouts ++ [lwC1])))

/-- The adapted structure dictionary for engC1 and userC1. -/
def structC1 : Structure :=
  (template_phase engC1.templates userC1.goal userC1.preferred_workouts
    userC1.fitness_level).1.2

/-- kneeBadEx with the attached parameters and notes. -/
def enhC1 : Exercise :=
  enhanceExercise paramsC1 userC1.injuries kneeBadEx

/-- Any Strength day generated for engC1 and userC1 holds exactly the
injury-conflicting exercise. -/
theorem c1_dayRel_strength_forced (d : Day)
    (h : DayRel byTypeC1 paramsC1 userC1.injuries (SVal.s "Strength") d) :
    d.exercises = [enhC1] := by
  unfold DayRel at h
  rw [if_neg (by decide), if_neg (by decide)] at h
  obtain ⟨htype, hsel⟩ := h
  change SelectExercisesRel (byTypeGet byTypeC1 (SVal.s "Strength")) "Strength" paramsC1
    userC1.injuries d.exercises at hsel
  rw [show byTypeGet byTypeC1 (SVal.s "Strength") = [kneeBadEx] from by decide] at hsel
  exact selectRel_singleton_forced kneeBadEx "Strength" paramsC1 userC1.injuries
    d.exercises (by decide) hsel

/-- C1 [code_bug]: for the concrete engine engC1 and user userC1 the
equipment pass empties the injury-safe set, the fallback reinstates the
unfiltered catalog, and every plan the code can generate contains an
exercise carrying an injury_restriction that is in the user injuries. -/
theorem c1_fallback_breaks_injury_invariant (out : Except PyErr WorkoutPlan)
    (u2 : UserProfile) (e2 : Engine)
    (h : GeneratePlanRel engC1 userC1 (some lwC1) out u2 e2) :
    ∃ days, out = Except.ok ⟨"u1", 1, days⟩ ∧
      ∃ d ∈ days, ∃ ex ∈ (Prod.snd d).exercises,
        "Knee Injury" ∈ ex.injury_restrictions ∧ "Knee Injury" ∈ userC1.injuries := by
  obtain ⟨hu, he, hafter⟩ := h
  obtain ⟨days, ⟨hmap, hdays⟩, hout⟩ := hafter
  refine ⟨days, hout, ?_⟩
  have hlen : days.length = 7 := by simpa using congrArg List.length hmap
  have h0 : 0 < days.length := by omega
  have hd0 := hdays 0 h0
  have hmon : (days.get ⟨0, h0⟩).2.exercises = [enhC1] :=
    c1_dayRel_strength_forced (days.get ⟨0, h0⟩).2 hd0
  refine ⟨days.get ⟨0, h0⟩, List.get_mem days 0 h0, enhC1, ?_, by decide, by decide⟩
  rw [hmon]
  exact List.mem_singleton.mpr rfl

/-- The deterministic plan generated for engC1 and userC1. -/
def planC1days : List (String × Day) :=
  [("Monday", ⟨SVal.s "Strength", [enhC1]⟩), ("Tuesday", ⟨SVal.s "Cardio", []⟩),
   ("Wednesday", ⟨SVal.s "Rest", []⟩), ("Thursday", ⟨SVal.s "Strength", [enhC1]⟩),
   ("Friday", ⟨SVal.s "Cardio", []⟩), ("Saturday", ⟨SVal.s "Flexibility", []⟩),
   ("Sunday", ⟨SVal.s "Rest", []⟩)]

/-- A Strength day of the concrete C1 plan satisfies the day relation. -/
theorem c1_dayRel_strength_day :
    DayRel byTypeC1 paramsC1 userC1.injuries (SVal.s "Strength")
      ⟨SVal.s "Strength", [enhC1]⟩ := by
  unfold DayRel
  rw [if_neg (by decide), if_neg (by decide)]
  refine ⟨rfl, ?_⟩
  change SelectExercisesRel (byTypeGet byTypeC1 (SVal.s "Strength")) "Strength" paramsC1
    userC1.injuries [enhC1]
  rw [show byTypeGet byTypeC1 (SVal.s "Strength") = [kneeBadEx] from by decide]
  unfold SelectExercisesRel
  rw [if_neg (by simp)]
  simp only [show typeFilter [kneeBadEx] "Strength" = [kneeBadEx] from by decide]
  rw [if_neg (by simp)]
  exact ⟨2, [kneeBadEx], Or.inl rfl, by decide, List.Subperm.refl _, rfl⟩

/-- The generation relation holds of the concrete C1 plan. -/
theorem genRelC1 :
    GeneratePlanRel engC1 userC1 (some lwC1)
      (Except.ok ⟨"u1", 1, planC1days⟩)
      { userC1 with past_workouts := [lwC1] } engC1 := by
  refine ⟨rfl, rfl, ?_⟩
  refine ⟨planC1days, ⟨rfl, ?_⟩, rfl⟩
  intro i hi
  have hi7 : i < 7 := by simpa [planC1days] using hi
  interval_cases i
  · exact c1_dayRel_strength_day
  · exact dayRel_empty_pool byTypeC1 paramsC1 userC1.injuries "Cardio"
      (by decide) (by decide) (by decide)
  · exact dayRel_rest byTypeC1 paramsC1 userC1.injuries
  · exact c1_dayRel_strength_day
  · exact dayRel_empty_pool byTypeC1 paramsC1 userC1.injuries "Cardio"
      (by decide) (by decide) (by decide)
  · exact dayRel_empty_pool byTypeC1 paramsC1 userC1.injuries "Flexibility"
      (by decide) (by decide) (by decide)
  · exact dayRel_rest byTypeC1 paramsC1 userC1.injuries

/-- Witness for C1: the hypothesis of the theorem holds at the concrete
plan, and the conclusion follows by applying the theorem there. -/
theorem c1_fallback_breaks_injury_invariant_witness :
    GeneratePlanRel engC1 userC1 (some lwC1)
      (Except.ok ⟨"u1", 1, planC1days⟩) { userC1 with past_workouts := [lwC1] } engC1 ∧
    (∃ days, (Except.ok (⟨"u1", 1, planC1days⟩ : WorkoutPlan) :
          Except PyErr WorkoutPlan) = Except.ok ⟨"u1", 1, days⟩ ∧
      ∃ d ∈ days, ∃ ex ∈ (Prod.snd d).exercises,
        "Knee Injury" ∈ ex.injury_restrictions ∧ "Knee Injury" ∈ userC1.injuries) :=
  ⟨genRelC1, c1_fallback_breaks_injury_invariant _ _ _ genRelC1⟩

/-! ### C4: the AttributeError recovery path crashes -/

/-- C4 [code_bug]: when any stage of the try block raises AttributeError,
the recovery handler leaves adapted_template unassigned, so the engine
raises UnboundLocalError at Step 6 and never returns a plan. -/
theorem c4_attr_recovery_crashes_unbound_local (eng : Engine) (user : UserProfile)
    (msg : String) (out : Except PyErr WorkoutPlan)
    (h : AfterTryRel eng user (TryOutcome.attrError msg) out) :
    out = Except.error (PyErr.unboundLocal "adapted_template") ∧
    ∀ plan, out ≠ Except.ok plan := by
  simp only [AfterTryRel, localRead] at h
  refine ⟨h, fun plan hplan => ?_⟩
  rw [h] at hplan
  cases hplan

/-- Witness for C4 at a concrete engine, user and message. -/
theorem c4_attr_recovery_crashes_unbound_local_witness :
    AfterTryRel engC1 userC1 (TryOutcome.attrError "no attribute")
      (Except.error (PyErr.unboundLocal "adapted_template")) ∧
    (Except.error (PyErr.unboundLocal "adapted_template") : Except PyErr WorkoutPlan) =
      Except.error (PyErr.unboundLocal "adapted_template") := by
  have hrel : AfterTryRel engC1 userC1 (TryOutcome.attrError "no attribute")
      (Except.error (PyErr.unboundLocal "adapted_template")) := by
    simp only [AfterTryRel, localRead]
  exact ⟨hrel,
    (c4_attr_recovery_crashes_unbound_local engC1 userC1 "no attribute" _ hrel).1⟩

/-! ### C9: empty exercise lists versus Rest and Active Recovery -/

/-- An engine with an empty catalog and an empty template store. -/
def engE : Engine :=
  { exercises := [], templates := [] }

/-- An intermediate user with no injuries. -/
def userE : UserProfile :=
  { user_id := "u2", name := "Bo", age := 40, gender := "M", goal := "General Fitness",
    fitness_level := "Intermediate", injuries := [], preferred_workouts := [],
    equipment := [], past_workouts := [] }

/-- The categorized dictionary for engE and userE, which is empty. -/
def byTypeE : List (String × List Exercise) :=
  balance_muscle_groups (categorize_exercises (apply_user_preferences
    (candidateExercises engE.exercises userE.injuries userE.equipment)
    userE.preferred_workouts userE.fitness_level (userE.past_workouts ++ [lwC1])))

/-- The adapted structure for engE and userE. -/
def structE : Structure :=
  (template_phase engE.templates userE.goal userE.preferred_workouts
    userE.fitness_level).1.2

/-- The deterministic plan generated for engE and userE: every day keeps
its template type and an empty exercise list. -/
def planEdays : List (String × Day) :=
  [("Monday", ⟨SVal.s "Strength", []⟩), ("Tuesday", ⟨SVal.s "Cardio", []⟩),
   ("Wednesday", ⟨SVal.s "Core", []⟩), ("Thursday", ⟨SVal.s "Strength", []⟩),
   ("Friday", ⟨SVal.s "Cardio", []⟩), ("Saturday", ⟨SVal.s "Flexibility", []⟩),
   ("Sunday", ⟨SVal.s "Rest", []⟩)]

/-- The generation relation holds of the concrete C9 plan. -/
theorem genRelE :
    GeneratePlanRel engE userE (some lwC1)
      (Except.ok ⟨"u2", 1, planEdays⟩)
      { userE with past_workouts := [lwC1] } engE := by
  refine ⟨rfl, rfl, ?_⟩
  refine ⟨planEdays, ⟨rfl, ?_⟩, rfl⟩
  intro i hi
  have hi7 : i < 7 := by simpa [planEdays] using hi
  interval_cases i
  · exact dayRel_empty_pool byTypeE
      (generate_progressive_parameters userE.fitness_level userE.goal)
      userE.injuries "Strength" (by decide) (by decide) (by decide)
  · exact dayRel_empty_pool byTypeE
      (generate_progressive_parameters userE.fitness_level userE.goal)
      userE.injuries "Cardio" (by decide) (by decide) (by decide)
  · exact dayRel_empty_pool byTypeE
      (generate_progressive_parameters userE.fitness_level userE.goal)
      userE.injuries "Core" (by decide) (by decide) (by decide)
  · exact dayRel_empty_pool byTypeE
      (generate_progressive_parameters userE.fitness_level userE.goal)
      userE.injuries "Strength" (by decide) (by decide) (by decide)
  · exact dayRel_empty_pool byTypeE
      (generate_progressive_parameters userE.fitness_level userE.goal)
      userE.injuries "Cardio" (by decide) (by decide) (by decide)
  · exact dayRel_empty_pool byTypeE
      (generate_progressive_parameters userE.fitness_level userE.goal)
      userE.injuries "Flexibility" (by decide) (by decide) (by decide)
  · exact dayRel_rest byTypeE
      (generate_progressive_parameters userE.fitness_level userE.goal) userE.injuries

/-- C9 counterexample: a generated plan whose Monday has type Strength and
an empty exercise list, so a day can be empty without being Rest or Active
Recovery and the claimed equivalence fails. -/
theorem c9_counterexample_empty_nonrest_day :
    GeneratePlanRel engE userE (some lwC1)
      (Except.ok ⟨"u2", 1, planEdays⟩) { userE with past_workouts := [lwC1] } engE ∧
    ("Monday", (⟨SVal.s "Strength", []⟩ : Day)) ∈ planEdays ∧
    (⟨SVal.s "Strength", []⟩ : Day).exercises = [] ∧
    ¬(SVal.s "Strength" = SVal.s "Rest" ∨ SVal.s "Strength" = SVal.s "Active Recovery") :=
  ⟨genRelE, by decide, rfl, by decide⟩

/-- C9 amended: in every generated plan a day whose type is Rest or Active
Recovery has an empty exercise list; the converse direction fails when no
catalog exercise matches a day type. -/
theorem c9_amended_rest_days_empty (eng : Engine) (user : UserProfile) (w : WorkoutRec)
    (out : Except PyErr WorkoutPlan) (u2 : UserProfile) (e2 : Engine)
    (h : GeneratePlanRel eng user (some w) out u2 e2)
    (plan : WorkoutPlan) (hout : out = Except.ok plan)
    (d : String × Day) (hd : d ∈ plan.days)
    (ht : (Prod.snd d).dtype = SVal.s "Rest" ∨ (Prod.snd d).dtype = SVal.s "Active Recovery") :
    (Prod.snd d).exercises = [] := by
  obtain ⟨hu, he, hafter⟩ := h
  obtain ⟨days, ⟨hmap, hdays⟩, hok⟩ := hafter
  rw [hok] at hout
  have hplan : plan = ⟨user.user_id, 1, days⟩ := (Except.ok.inj hout).symm
  subst hplan
  obtain ⟨⟨i, hi⟩, hget⟩ := List.mem_iff_get.mp hd
  have hdi := hdays i hi
  rw [hget] at hdi
  unfold DayRel at hdi
  split_ifs at hdi with hw1 hw2
  · rw [hdi]
  · rw [hdi]
  · obtain ⟨hty, _⟩ := hdi
    rcases ht with hrest | har
    · exact absurd (hty.symm.trans hrest) hw1
    · exact absurd (hty.symm.trans har) hw2

/-- Witness for the amended C9: applied to the concrete generated plan at
its Sunday Rest day. -/
theorem c9_amended_rest_days_empty_witness :
    GeneratePlanRel engE userE (some lwC1)
      (Except.ok ⟨"u2", 1, planEdays⟩) { userE with past_workouts := [lwC1] } engE ∧
    (Prod.snd ("Sunday", (⟨SVal.s "Rest", []⟩ : Day))).exercises = [] :=
  ⟨genRelE, c9_amended_rest_days_empty engE userE lwC1 _ _ _ genRelE _ rfl
    ("Sunday", ⟨SVal.s "Rest", []⟩) (by decide) (Or.inl rfl)⟩

/-! ### C7: the schedule optimizer -/

/-- Modelled from the spec sentence for the optimizer: walk the sequence
carrying the 1-based position p and the number of rest days already
inserted; after appending an entry, insert a Rest exactly when p minus that
number is a multiple of 3 and the entry is neither Flexibility nor
Mobility. -/
def specInsertWalk : List String → Int → Int → List String
  | [], _, _ => []
  | workout :: rest, p, rests =>
    if (p - rests) % 3 = 0 ∧ workout ≠ "Flexibility" ∧ workout ≠ "Mobility" then
      workout :: "Rest" :: specInsertWalk rest (p + 1) (rests + 1)
    else
      workout :: specInsertWalk rest (p + 1) rests

/-- The source loop with 0-based index i coincides with the spec walk at
1-based position i + 1. -/
theorem loop_eq_specWalk (s : List String) : ∀ (i rests : Int),
    optimize_schedule_loop s i rests = specInsertWalk s (i + 1) rests := by
  induction s with
  | nil => intro i rests; rfl
  | cons w rest ih =>
    intro i rests
    unfold optimize_schedule_loop specInsertWalk
    by_cases hcond : (i + 1 - rests) % 3 = 0 ∧ w ≠ "Flexibility" ∧ w ≠ "Mobility"
    · rw [if_pos hcond, if_pos hcond, ih (i + 1) (rests + 1)]
    · rw [if_neg hcond, if_neg hcond, ih (i + 1) rests]

/-- The optimizer loop never shortens its input. -/
theorem loop_length_ge (s : List String) : ∀ (i rests : Int),
    s.length ≤ (optimize_schedule_loop s i rests).length := by
  induction s with
  | nil => intro i rests; simp [optimize_schedule_loop]
  | cons w rest ih =>
    intro i rests
    unfold optimize_schedule_loop
    split
    · have := ih (i + 1) (rests + 1)
      simp only [List.length_cons]
      omega
    · have := ih (i + 1) rests
      simp only [List.length_cons]
      omega

/-- The optimizer returns exactly 7 entries whenever its input has at
least 7. -/
theorem optimize_schedule_length_of_ge (schedule : List String)
    (h : 7 ≤ schedule.length) :
    (optimize_schedule schedule).length = 7 := by
  unfold optimize_schedule
  rw [List.length_take]
  have := loop_length_ge schedule 0 0
  omega

/-- C7 [confirmed]: on a schedule already padded to length at least 7, the
optimizer output is the spec-described insertion walk truncated to 7
entries, and its length is exactly 7. -/
theorem c7_optimizer_rest_insertion (schedule : List String)
    (h : 7 ≤ schedule.length) :
    optimize_schedule schedule = (specInsertWalk schedule 1 0).take 7 ∧
    (optimize_schedule schedule).length = 7 := by
  constructor
  · unfold optimize_schedule
    rw [loop_eq_specWalk schedule 0 0]
    norm_num
  · exact optimize_schedule_length_of_ge schedule h

/-- Witness for C7 at a concrete frequency-expanded schedule. -/
theorem c7_optimizer_rest_insertion_witness :
    7 ≤ (["Strength", "Strength", "Strength", "Strength", "Cardio", "Rest",
          "Rest"] : List String).length ∧
    (optimize_schedule ["Strength", "Strength", "Strength", "Strength", "Cardio",
        "Rest", "Rest"] =
      (specInsertWalk ["Strength", "Strength", "Strength", "Strength", "Cardio",
        "Rest", "Rest"] 1 0).take 7 ∧
    (optimize_schedule ["Strength", "Strength", "Strength", "Strength", "Cardio",
        "Rest", "Rest"]).length = 7) :=
  ⟨by decide, c7_optimizer_rest_insertion _ (by decide)⟩

/-! ### C10: the muscle-group balancer -/

/-- A no-equipment leg exercise with no restrictions. -/
def exLegs : Exercise :=
  { name := "Bodyweight Squats", exercise_type := "Strength", muscle_groups := ["Legs"],
    equipment_needed := [], intensity := "Low", difficulty := "Beginner",
    injury_restrictions := [], alternatives := ["Wall Sit"] }

/-- A core exercise distinct from exLegs. -/
def exCore : Exercise :=
  { name := "Plank", exercise_type := "Strength", muscle_groups := ["Core"],
    equipment_needed := [], intensity := "Low", difficulty := "Beginner",
    injury_restrictions := [], alternatives := ["Side Plank"] }

/-- The greedy pass picks a sublist of its input. -/
theorem greedyBalance_sublist (exs : List Exercise) :
    ∀ claimed, List.Sublist (greedyBalance exs claimed) exs := by
  induction exs with
  | nil => intro claimed; simp [greedyBalance]
  | cons x xs ih =>
    intro claimed
    unfold greedyBalance
    split
    · exact (ih _).cons x
    · exact (ih _).cons₂ x

/-- Keeping exactly the members of a sublist of a duplicate-free list
recovers that sublist. -/
theorem filter_mem_of_sublist {α : Type} [DecidableEq α] {s l : List α}
    (hs : List.Sublist s l) (hn : l.Nodup) :
    l.filter (fun x => decide (x ∈ s)) = s := by
  induction hs with
  | slnil => simp
  | cons a h ih =>
    rename_i l₁ l₂
    simp only [List.nodup_cons] at hn
    rw [List.filter_cons]
    have ha : a ∉ l₁ := fun hmem => hn.1 (h.subset hmem)
    simp [ha, ih hn.2]
  | cons₂ a h ih =>
    rename_i l₁ l₂
    simp only [List.nodup_cons] at hn
    rw [List.filter_cons]
    have hrw : l₂.filter (fun x => decide (x ∈ a :: l₁)) = l₂.filter (fun x => decide (x ∈ l₁)) :=
      List.filter_congr (fun x hx => by
        have hxa : x ≠ a := fun he => hn.1 (he ▸ hx)
        simp [hxa])
    rw [if_pos (by simp), hrw, ih hn.2]

/-- C10 counterexample: a group holding the same exercise twice loses one
copy, because the remaining pass tests Python list membership, which is
equality: the output is a single copy and is not a permutation of the
input, so an exercise is dropped. -/
theorem c10_counterexample_duplicate_dropped :
    balanceGroup [exLegs, exLegs] = [exLegs] ∧
    ¬ List.Perm (balanceGroup [exLegs, exLegs]) [exLegs, exLegs] := by
  constructor
  · decide
  · intro hperm
    have hlen := hperm.length_eq
    rw [show balanceGroup [exLegs, exLegs] = [exLegs] from by decide] at hlen
    simp at hlen

/-- C10 amended: for a group of pairwise-distinct exercises the output is
the greedy-accepted exercises followed by the not-accepted ones in input
order, and it is a permutation of the input — nothing dropped or
duplicated.  [With duplicates the remaining pass drops every copy equal to
an accepted exercise.] -/
theorem c10_amended_balance_perm (exs : List Exercise) (hn : exs.Nodup) :
    balanceGroup exs =
      greedyBalance exs [] ++
        exs.filter (fun ex => !(decide (ex ∈ greedyBalance exs []))) ∧
    List.Perm (balanceGroup exs) exs := by
  refine ⟨rfl, ?_⟩
  have hacc : exs.filter (fun x => decide (x ∈ greedyBalance exs [])) = greedyBalance exs [] :=
    filter_mem_of_sublist (greedyBalance_sublist exs []) hn
  have h1 : balanceGroup exs =
      exs.filter (fun x => decide (x ∈ greedyBalance exs [])) ++
        exs.filter (fun x => !(decide (x ∈ greedyBalance exs []))) := by
    unfold balanceGroup
    rw [hacc]
  rw [h1]
  exact List.filter_append_perm _ exs

/-- Witness for the amended C10 at a two-element duplicate-free group. -/
theorem c10_amended_balance_perm_witness :
    ([exLegs, exCore] : List Exercise).Nodup ∧
    (balanceGroup [exLegs, exCore] =
      greedyBalance [exLegs, exCore] [] ++
        ([exLegs, exCore] : List Exercise).filter
          (fun ex => !(decide (ex ∈ greedyBalance [exLegs, exCore] []))) ∧
    List.Perm (balanceGroup [exLegs, exCore]) [exLegs, exCore]) :=
  ⟨by decide, c10_amended_balance_perm _ (by decide)⟩

/-! ### C8: the preference scorer and its ordering -/

/-- The strict string order is asymmetric. -/
theorem strLtB_asymm : ∀ xs ys : List Char, strLtB xs ys = true → strLtB ys xs = false := by
  intro xs
  induction xs with
  | nil =>
    intro ys h
    cases ys with
    | nil => simp [strLtB] at h
    | cons y ys => simp [strLtB]
  | cons x xs ih =>
    intro ys h
    cases ys with
    | nil => simp [strLtB] at h
    | cons y ys =>
      unfold strLtB at h ⊢
      by_cases h1 : x.toNat < y.toNat
      · rw [if_neg (by omega), if_pos h1]
      · rw [if_neg h1] at h
        by_cases h2 : y.toNat < x.toNat
        · rw [if_pos h2] at h
          exact absurd h (by simp)
        · rw [if_neg h2] at h
          rw [if_neg h2, if_neg h1]
          exact ih ys h

/-- If c is strictly below a, then c is strictly below b or b is strictly
below a: the connecting lemma behind transitivity of the non-strict order. -/
theorem strLtB_split : ∀ c a b : List Char,
    strLtB c a = true → strLtB c b = true ∨ strLtB b a = true := by
  intro c
  induction c with
  | nil =>
    intro a b h
    cases a with
    | nil => simp [strLtB] at h
    | cons a0 as =>
      cases b with
      | nil => right; simp [strLtB]
      | cons b0 bs => left; simp [strLtB]
  | cons c0 cs ih =>
    intro a b h
    cases a with
    | nil => simp [strLtB] at h
    | cons a0 as =>
      cases b with
      | nil => right; simp [strLtB]
      | cons b0 bs =>
        unfold strLtB at h ⊢
        by_cases hca : c0.toNat < a0.toNat
        · by_cases hcb : c0.toNat < b0.toNat
          · left; rw [if_pos hcb]
          · by_cases hba : b0.toNat < a0.toNat
            · right; rw [if_pos hba]
            · exact absurd hca (by omega)
        · rw [if_neg hca] at h
          by_cases hac : a0.toNat < c0.toNat
          · rw [if_pos hac] at h
            exact absurd h (by simp)
          · rw [if_neg hac] at h
            by_cases hcb : c0.toNat < b0.toNat
            · left; rw [if_pos hcb]
            · by_cases hbc : b0.toNat < c0.toNat
              · right; rw [if_pos (show b0.toNat < a0.toNat by omega)]
              · rcases ih as bs h with h1 | h2
                · left
                  rw [if_neg hcb, if_neg hbc]
                  exact h1
                · right
                  rw [if_neg (show ¬ b0.toNat < a0.toNat by omega),
                      if_neg (show ¬ a0.toNat < b0.toNat by omega)]
                  exact h2

/-- The Python string non-strict order is total. -/
theorem pyStrLe_total (a b : String) : pyStrLe a b = true ∨ pyStrLe b a = true := by
  unfold pyStrLe pyStrLt
  by_cases h : strLtB b.data a.data = true
  · right
    simp [strLtB_asymm _ _ h]
  · left
    simp [Bool.not_eq_true] at h
    simp [h]

/-- The Python string non-strict order is transitive. -/
theorem pyStrLe_trans {a b c : String} (h1 : pyStrLe a b = true) (h2 : pyStrLe b c = true) :
    pyStrLe a c = true := by
  unfold pyStrLe pyStrLt at h1 h2 ⊢
  simp only [Bool.not_eq_true'] at h1 h2 ⊢
  by_contra hcon
  rw [Bool.not_eq_false] at hcon
  rcases strLtB_split c.data a.data b.data hcon with h | h
  · rw [h] at h2
    cases h2
  · rw [h] at h1
    cases h1

/-- The key order of the scorer is total. -/
theorem keyLe_total (a b : ℚ × String) : keyLe a b ∨ keyLe b a := by
  unfold keyLe
  rcases lt_trichotomy a.1 b.1 with h | h | h
  · exact Or.inl (Or.inl h)
  · rcases pyStrLe_total a.2 b.2 with hs | hs
    · exact Or.inl (Or.inr ⟨h, hs⟩)
    · exact Or.inr (Or.inr ⟨h.symm, hs⟩)
  · exact Or.inr (Or.inl h)

/-- The key order of the scorer is transitive. -/
theorem keyLe_trans {a b c : ℚ × String} (h1 : keyLe a b) (h2 : keyLe b c) : keyLe a c := by
  unfold keyLe at h1 h2 ⊢
  rcases h1 with h1 | ⟨he1, hs1⟩
  · rcases h2 with h2 | ⟨he2, hs2⟩
    · exact Or.inl (h1.trans h2)
    · exact Or.inl (he2 ▸ h1)
  · rcases h2 with h2 | ⟨he2, hs2⟩
    · exact Or.inl (he1.symm ▸ h2)
    · exact Or.inr ⟨he1.trans he2, pyStrLe_trans hs1 hs2⟩

/-- The score an exercise receives from the history-derived tables, the
preferences and the level: scoreExercise applied to the averaged tables. -/
def historyScore (past_workouts : List WorkoutRec) (preferred_types : List String)
    (fitness_level : String) (ex : Exercise) : ℚ :=
  scoreExercise (avgTable (buildSatisfactionTables past_workouts).1)
    (avgTable (buildSatisfactionTables past_workouts).2) preferred_types fitness_level ex

/-- C8 amended: for every non-empty list the scorer returns a permutation
of its input that is pairwise non-ascending in the code score [the additive
rules with the Python truthiness guards: the +2 preferred-type bonus
requires a nonempty type and the +0.5 bonus requires truthy sets and reps
values], with ties on equal scores ordered reverse-alphabetically by name. -/
theorem c8_amended_scorer_sorts_desc (exercises : List Exercise)
    (preferred_types : List String) (fitness_level : String)
    (past_workouts : List WorkoutRec) (h : exercises ≠ []) :
    List.Perm (apply_user_preferences exercises preferred_types fitness_level past_workouts)
      exercises ∧
    List.Pairwise (fun a b =>
        historyScore past_workouts preferred_types fitness_level b <
          historyScore past_workouts preferred_types fitness_level a ∨
        (historyScore past_workouts preferred_types fitness_level b =
            historyScore past_workouts preferred_types fitness_level a ∧
          pyStrLe b.name a.name = true))
      (apply_user_preferences exercises preferred_types fitness_level past_workouts) := by
  unfold apply_user_preferences
  rw [if_neg h]
  constructor
  · exact List.perm_insertionSort _ _
  · haveI : IsTotal Exercise
        (prefRel (avgTable (buildSatisfactionTables past_workouts).1)
          (avgTable (buildSatisfactionTables past_workouts).2) preferred_types fitness_level) :=
      ⟨fun a b => keyLe_total _ _⟩
    haveI : IsTrans Exercise
        (prefRel (avgTable (buildSatisfactionTables past_workouts).1)
          (avgTable (buildSatisfactionTables past_workouts).2) preferred_types fitness_level) :=
      ⟨fun a b c hab hbc => keyLe_trans hbc hab⟩
    exact List.sorted_insertionSort
      (prefRel (avgTable (buildSatisfactionTables past_workouts).1)
        (avgTable (buildSatisfactionTables past_workouts).2) preferred_types fitness_level)
      exercises

/-- Witness for the amended C8 at a concrete two-exercise list. -/
theorem c8_amended_scorer_sorts_desc_witness :
    ([exLegs, exCore] : List Exercise) ≠ [] ∧
    (List.Perm (apply_user_preferences [exLegs, exCore] [] "Beginner" []) [exLegs, exCore] ∧
    List.Pairwise (fun a b =>
        historyScore [] [] "Beginner" b < historyScore [] [] "Beginner" a ∨
        (historyScore [] [] "Beginner" b = historyScore [] [] "Beginner" a ∧
          pyStrLe b.name a.name = true))
      (apply_user_preferences [exLegs, exCore] [] "Beginner" [])) :=
  ⟨by decide, c8_amended_scorer_sorts_desc [exLegs, exCore] [] "Beginner" [] (by decide)⟩

/-- Modelled from the spec: the six additive rules of 4.2 read literally,
with no truthiness guards — +2 whenever the type is in the preferred set,
+0.5 whenever the exercise carries explicit set and rep parameters. -/
def claimScore (avg_type avg_intensity : List (String × ℚ)) (preferred_types : List String)
    (fitness_level : String) (exercise : Exercise) : ℚ :=
  (if exercise.exercise_type ∈ preferred_types then 2 else 0) +
  (if exercise.difficulty = fitness_level then 1 else 0) +
  (if exercise.sets.isSome ∧ exercise.reps.isSome then 1/2 else 0) +
  (match dictGet? avg_intensity exercise.intensity with
   | some a => if 4 ≤ a then 2 else if 3 ≤ a then 1 else 0
   | none => 0) +
  (match dictGet? avg_type exercise.exercise_type with
   | some a => if 4 ≤ a then 2 else if 3 ≤ a then 1 else 0
   | none => 0) +
  (if (fitness_level = "Beginner" ∧ exercise.intensity = "Low") ∨
      (fitness_level = "Intermediate" ∧ exercise.intensity = "Moderate") ∨
      (fitness_level = "Advanced" ∧ exercise.intensity = "High") then 1 else 0)

/-- Modelled from the spec: the ordering the claim predicts, a stable
descending sort on the literally-read score with the same reverse
tie-break on names. -/
def claimRel (avg_type avg_intensity : List (String × ℚ)) (preferred_types : List String)
    (fitness_level : String) (a b : Exercise) : Prop :=
  keyLe (claimScore avg_type avg_intensity preferred_types fitness_level b, b.name)
        (claimScore avg_type avg_intensity preferred_types fitness_level a, a.name)

instance (avg_type avg_intensity : List (String × ℚ)) (preferred_types : List String)
    (fitness_level : String) :
    DecidableRel (claimRel avg_type avg_intensity preferred_types fitness_level) :=
  fun a b => by
    unfold claimRel
    infer_instance

/-- Modelled from the spec: the output the claim describes. -/
def claimOrder (exercises : List Exercise) (preferred_types : List String)
    (fitness_level : String) (past_workouts : List WorkoutRec) : List Exercise :=
  if exercises = [] then []
  else
    let tbls := buildSatisfactionTables past_workouts
    List.insertionSort
      (claimRel (avgTable tbls.1) (avgTable tbls.2) preferred_types fitness_level)
      exercises

/-- An exercise that carries explicit sets and reps values whose sets value
is the falsy number 0. -/
def exA : Exercise :=
  { name := "A", exercise_type := "Strength", muscle_groups := ["Legs"],
    equipment_needed := [], intensity := "Low", difficulty := "Beginner",
    injury_restrictions := [], alternatives := [],
    sets := some (Val.int 0), reps := some (Val.int 10) }

/-- An exercise identical in every scored attribute but with no sets and
reps keys and a later name. -/
def exB : Exercise :=
  { name := "B", exercise_type := "Strength", muscle_groups := ["Legs"],
    equipment_needed := [], intensity := "Low", difficulty := "Beginner",
    injury_restrictions := [], alternatives := [] }

/-- C8 counterexample: with no history, no preferences and level
Intermediate, exA carries explicit sets and reps [sets equal to the falsy
number 0] and exB carries none; the rules read literally give exA the +0.5
bonus and place it first, but the code gives no bonus [the truthiness guard
rejects a 0 value], scores tie, and the reverse-alphabetical tie-break
returns the opposite order. -/
theorem c8_counterexample_truthiness_guard :
    apply_user_preferences [exA, exB] [] "Intermediate" [] = [exB, exA] ∧
    claimOrder [exA, exB] [] "Intermediate" [] = [exA, exB] ∧
    ([exB, exA] : List Exercise) ≠ [exA, exB] := by
  refine ⟨?_, ?_, by decide⟩
  · have hnr : ¬ prefRel (avgTable (buildSatisfactionTables ([] : List WorkoutRec)).1)
        (avgTable (buildSatisfactionTables ([] : List WorkoutRec)).2) [] "Intermediate"
        exA exB := by
      unfold prefRel keyLe
      norm_num [scoreExercise, valTruthy, exA, exB, dictGet?, buildSatisfactionTables,
        avgTable, show pyStrLe "B" "A" = false from by decide]
    unfold apply_user_preferences
    rw [if_neg (by simp)]
    simp only [List.insertionSort, List.orderedInsert]
    rw [if_neg hnr]
  · have hr : claimRel (avgTable (buildSatisfactionTables ([] : List WorkoutRec)).1)
        (avgTable (buildSatisfactionTables ([] : List WorkoutRec)).2) [] "Intermediate"
        exA exB := by
      unfold claimRel keyLe
      left
      norm_num [claimScore, exA, exB, dictGet?, buildSatisfactionTables, avgTable]
    unfold claimOrder
    rw [if_neg (by simp)]
    simp only [List.insertionSort, List.orderedInsert]
    rw [if_pos hr]

/-- Supporting fact for the C7 context: on a frequency-form structure the
padding step hands the optimizer a sequence of length at least 7, so the
resulting day schedule always has exactly 7 entries. -/
theorem create_day_schedule_freq_length (s : Structure)
    (h : weekDays.any (fun d => dictHas s d) = false) :
    (create_day_schedule s).length = 7 := by
  unfold create_day_schedule
  rw [if_neg (by simp [h])]
  rw [List.length_map]
  by_cases hlen : (freqExpand s).length < 7
  · rw [if_pos hlen]
    have h7 : 7 ≤ ((freqExpand s) ++ List.replicate (7 - (freqExpand s).length) "Rest").length := by
      simp only [List.length_append, List.length_replicate]
      omega
    exact optimize_schedule_length_of_ge _ h7
  · rw [if_neg hlen]
    exact optimize_schedule_length_of_ge _ (by omega)
